import Mathlib

/-
Verification of the demo HTTP server in test-application.go.

The handlers are embedded as pure functions.  All sources of nondeterminism
(random draws, the time at which the request context is cancelled, clock
readings, wall-clock timestamps) are passed in explicitly through an `Env`
record.  Time is measured in integer milliseconds from the start of the
handler invocation.  A handler returns the HTTP response it writes together
with the list of log messages it emits (the formatted message text of each
log.Printf call, without the logger's own timestamp prefix).
-/

namespace Demo

/-- JSON values, the target of Go's encoding/json serialisation.
Object fields are kept as an ordered association list; Go serialises
struct fields in declaration order and map keys in sorted order, and the
definitions below list fields accordingly. -/
inductive Json where
  | null : Json
  | str : String → Json
  | num : Int → Json
  | arr : List Json → Json
  | obj : List (String × Json) → Json

/-- Field lookup in a JSON object. -/
def Json.get (j : Json) (key : String) : Option Json :=
  match j with
  | Json.obj fields => fields.lookup key
  | _ => none

/-- `User` from test-application.go: `{ ID int; Name string }` with JSON
keys `id` and `name`. -/
structure User where
  id : Int
  name : String

def User.toJson (u : User) : Json :=
  Json.obj [("id", Json.num u.id), ("name", Json.str u.name)]

/-- `Response` from test-application.go: the uniform envelope
`{ Status, Message, Data }`; `Data` carries `omitempty`, so a `none` data
field is omitted from the serialised object. -/
structure Response where
  status : String
  message : String
  data : Option Json

def Response.toJson (r : Response) : Json :=
  Json.obj ([("status", Json.str r.status), ("message", Json.str r.message)] ++
    (match r.data with
     | none => []
     | some d => [("data", d)]))

/-- An HTTP response body: either a JSON document produced by
json.NewEncoder(w).Encode, or plain text produced by http.Error. -/
inductive Body where
  | json : Json → Body
  | text : String → Body

/-- The response as written to the wire: status code, Content-Type header
and body. -/
structure HttpResponse where
  status : Nat
  contentType : String
  body : Body

/-- Extract the JSON document of a response body, when it is JSON. -/
def HttpResponse.bodyJson (r : HttpResponse) : Option Json :=
  match r.body with
  | Body.json j => some j
  | Body.text _ => none

/-- Look up field `k` of the `data` member of a JSON response envelope. -/
def dataField (r : HttpResponse) (k : String) : Option Json :=
  match r.bodyJson with
  | some j =>
    match j.get "data" with
    | some d => d.get k
    | none => none
  | none => none

/-- Models Go's net/http `Error` helper: it sets
`Content-Type: text/plain; charset=utf-8`, writes the given status code and
the message followed by a newline. -/
def httpError (msg : String) (code : Nat) : HttpResponse :=
  { status := code, contentType := "text/plain; charset=utf-8",
    body := Body.text (msg ++ "\n") }

/-- Models Go's net/http `NotFound` helper, which is
`Error(w, "404 page not found", 404)`. -/
def httpNotFound : HttpResponse :=
  httpError "404 page not found" 404

/-- The parts of the incoming *http.Request that the program reads:
the URL path (routing), the Authorization header (`r.Header.Get` returns
`""` when the header is absent), the remote address (logged only) and the
HTTP method (never read by any handler). -/
structure Request where
  method : String
  path : String
  authHeader : String
  remoteAddr : String

/-- The environment of one handler invocation: every nondeterministic
input, fixed up front.
* `cancelAt`: the absolute time (ms from handler start) at which the
  request context is cancelled (the client disconnects); `none` if never.
* `dbRand`, `extRand`, `opRands`: the values produced by the successive
  rand.Intn draws (`opRands i` is the draw of loop iteration `i`).
* `extTimestamp`: the `time.Now().Unix()` value read inside
  simulateExternalAPI.
* `nowRFC3339`: the `time.Now().Format(time.RFC3339)` string read when the
  envelope is built.
* `monoStart`, `monoNow`: monotonic-clock readings (ns) at process start
  (`startTime`, set once in main) and at the current handler invocation;
  `time.Since(startTime)` is their difference. -/
structure Env where
  cancelAt : Option Nat
  dbRand : Nat
  extRand : Nat
  opRands : Nat → Nat
  extTimestamp : Int
  nowRFC3339 : String
  monoStart : Int
  monoNow : Int

/-- Models `rand.Intn n`: the draw reduced into `[0, n)`. -/
def intn (n r : Nat) : Nat := r % n

/-- The database latency: `rand.Intn(90) + 10` milliseconds. -/
def dbLatency (r : Nat) : Nat := intn 90 r + 10

/-- The external-API latency: `rand.Intn(200) + 50` milliseconds. -/
def extLatency (r : Nat) : Nat := intn 200 r + 50

/-- A `select { case <-time.After(latency): ...; case <-ctx.Done(): ... }`
wait starting at absolute time `start`: if the context is cancelled
strictly before the timer fires, the wait ends at the cancellation time
(immediately, if already cancelled) with the `ctx.Done()` branch taken;
otherwise the timer branch is taken at `start + latency`.  (When both
channels become ready in the same instant Go picks one at random; the
model resolves that measure-zero tie in favour of the timer.)
Returns (time the wait ends, whether the cancellation branch was taken). -/
def ctxWait (start latency : Nat) (cancelAt : Option Nat) : Nat × Bool :=
  match cancelAt with
  | none => (start + latency, false)
  | some c => if c < start + latency then (max start c, true) else (start + latency, false)

/-- Models `time.Sleep`: an unconditional delay with no cancellation
channel; it always runs for the full duration. -/
def timeSleep (start dur : Nat) : Nat := start + dur

/-- The string `%v` of the `context.Canceled` error returned by
`ctx.Err()` after a client disconnect. -/
def contextCanceled : String := "context canceled"

/-- Result of `simulateDatabase`: when it returned, whether it returned
`ctx.Err()` (a non-nil error), and the log line it printed. -/
structure WaitResult where
  finish : Nat
  cancelled : Bool
  log : List String

/-- `simulateDatabase ctx operation` from test-application.go: draws a
latency of `rand.Intn(90)+10` ms, logs it, then waits with a select on
`time.After(latency)` and `ctx.Done()`; returns nil on the timer branch
and `ctx.Err()` on the cancellation branch. -/
def simulateDatabase (start r : Nat) (cancelAt : Option Nat) (operation : String) :
    WaitResult :=
  let latency := dbLatency r
  let w := ctxWait start latency cancelAt
  { finish := w.1, cancelled := w.2,
    log := ["Database operation: " ++ operation ++ " (latency: " ++ toString latency ++ "ms)"] }

/-- Result of `simulateExternalAPI`: when it returned, the returned data
(`none` exactly when it returned `nil, ctx.Err()`), and its log line. -/
structure ExtResult where
  finish : Nat
  data : Option Json
  log : List String

/-- `simulateExternalAPI ctx endpoint` from test-application.go: logs the
call, draws a latency of `rand.Intn(200)+50` ms, waits with a select on
`time.After(latency)` and `ctx.Done()`; on the timer branch returns the
map `{"external_data": "Data from <endpoint>", "timestamp": now.Unix()}`
(keys listed sorted, as encoding/json serialises maps), on the
cancellation branch returns `nil, ctx.Err()`. -/
def simulateExternalAPI (start r : Nat) (cancelAt : Option Nat) (endpoint : String)
    (ts : Int) : ExtResult :=
  let latency := extLatency r
  let w := ctxWait start latency cancelAt
  { finish := w.1,
    data := if w.2 then none else
      some (Json.obj [("external_data", Json.str ("Data from " ++ endpoint)),
                      ("timestamp", Json.num ts)]),
    log := ["Calling external API: " ++ endpoint] }

/-- The `for _, op := range operations` loops of badHandler and
adminHandler: for each operation, log `labelPrefix ++ op` and then
`time.Sleep(rand.Intn(span) + lo)` milliseconds, unconditionally.
Returns (finish time, log lines). -/
def opSleeps (start : Nat) (ops : List String) (idx : Nat) (rands : Nat → Nat)
    (span lo : Nat) (labelPrefix : String) : Nat × List String :=
  match ops with
  | [] => (start, [])
  | op :: rest =>
    let t := timeSleep start (intn span (rands idx) + lo)
    let r := opSleeps t rest (idx + 1) rands span lo labelPrefix
    (r.1, (labelPrefix ++ op) :: r.2)

/-- `nil` interfaces serialise as JSON null. -/
def orNull : Option Json → Json
  | none => Json.null
  | some j => j

/-- The goodHandler database call: starts at time 0 with the handler. -/
def goodDb (env : Env) : WaitResult :=
  simulateDatabase 0 env.dbRand env.cancelAt "SELECT users WHERE active=true"

/-- The goodHandler external call, started when the database call
returns. -/
def goodExt (env : Env) : ExtResult :=
  simulateExternalAPI (goodDb env).finish env.extRand env.cancelAt
    "https://api.example.com/status" env.extTimestamp

/-- A handler invocation's observable outcome: the response written and
the log messages printed, in order. -/
structure HandlerResult where
  resp : HttpResponse
  log : List String

/-- `goodHandler` from test-application.go.  If the database wait is
cancelled it replies 503 via http.Error and returns; otherwise it performs
the external call (tolerating its failure: `externalData` is then nil) and
replies 200 with the three static users, the external payload and a
processed_at timestamp (data map keys serialised in sorted order). -/
def goodHandler (req : Request) (env : Env) : HandlerResult :=
  if (goodDb env).cancelled then
    { resp := httpError "Database unavailable" 503,
      log := ["Processing good request from " ++ req.remoteAddr] ++ (goodDb env).log ++
        ["Database error: " ++ contextCanceled] }
  else
    let ext := goodExt env
    let extLog := match ext.data with
      | none => ["External API error: " ++ contextCanceled]
      | some _ => []
    let users : List User :=
      [{ id := 1, name := "Alice Johnson" },
       { id := 2, name := "Bob Smith" },
       { id := 3, name := "Charlie Brown" }]
    let response : Response :=
      { status := "success",
        message := "Request processed successfully",
        data := some (Json.obj
          [("external_data", orNull ext.data),
           ("processed_at", Json.str env.nowRFC3339),
           ("users", Json.arr (users.map User.toJson))]) }
    { resp := { status := 200, contentType := "application/json",
                body := Body.json response.toJson },
      log := ["Processing good request from " ++ req.remoteAddr] ++ (goodDb env).log ++
        ext.log ++ extLog ++ ["Successfully processed good request"] }

/-- The three named failed operations of badHandler. -/
def badOperations : List String :=
  ["validate_user_permissions", "check_rate_limits", "process_payment"]

/-- `badHandler` from test-application.go: a database wait whose error is
only logged, three unconditional sleeps of `rand.Intn(20)+5` ms, an
external call whose result is discarded, then always a 500 with the fixed
error envelope. -/
def badHandler (req : Request) (env : Env) : HandlerResult :=
  let db := simulateDatabase 0 env.dbRand env.cancelAt "SELECT * FROM non_existent_table"
  let dbLog := if db.cancelled then ["Expected database error: " ++ contextCanceled] else []
  let ops := opSleeps db.finish badOperations 0 env.opRands 20 5 "Operation failed: "
  let ext := simulateExternalAPI ops.1 env.extRand env.cancelAt
    "https://api.example.com/broken-endpoint" env.extTimestamp
  let extLog := match ext.data with
    | none => ["External API call failed as expected: " ++ contextCanceled]
    | some _ => []
  { resp :=
      { status := 500, contentType := "application/json",
        body := Body.json (Response.toJson
          { status := "error",
            message := "Internal server error occurred",
            data := some (Json.obj
              [("error_code", Json.str "INTERNAL_ERROR"),
               ("timestamp", Json.str env.nowRFC3339)]) }) },
    log := ["Processing bad request from " ++ req.remoteAddr] ++ db.log ++ dbLog ++
      ops.2 ++ ext.log ++ extLog ++ ["Processed bad request with error response"] }

/-- The three auth sub-operations of adminHandler. -/
def adminOperations : List String :=
  ["validate_token_format", "check_token_expiry", "verify_admin_permissions"]

/-- `adminHandler` from test-application.go: reads the Authorization
header (logged, never compared against anything), a database wait whose
error is only logged, three unconditional sleeps of `rand.Intn(15)+5` ms,
then always a 401 with the fixed unauthorized envelope. -/
def adminHandler (req : Request) (env : Env) : HandlerResult :=
  let authToken := req.authHeader
  let db := simulateDatabase 0 env.dbRand env.cancelAt
    "SELECT permissions FROM users WHERE token=?"
  let dbLog := if db.cancelled then ["Auth database error: " ++ contextCanceled] else []
  let ops := opSleeps db.finish adminOperations 0 env.opRands 15 5 "Auth operation: "
  { resp :=
      { status := 401, contentType := "application/json",
        body := Body.json (Response.toJson
          { status := "error",
            message := "Unauthorized access - admin privileges required",
            data := some (Json.obj
              [("error_code", Json.str "UNAUTHORIZED"),
               ("required_role", Json.str "admin"),
               ("timestamp", Json.str env.nowRFC3339)]) }) },
    log := ["Admin access attempted from " ++ req.remoteAddr,
            "Checking authorization token: " ++ authToken] ++ db.log ++ dbLog ++
      ops.2 ++ ["Authorization failed - insufficient permissions",
                "Rejected admin request - unauthorized"] }

/-- `time.Since startTime`: the difference of two monotonic-clock
readings, the uptime reported by healthHandler. -/
def timeSince (start now : Int) : Int := now - start

/-- `healthHandler` from test-application.go: no simulated latency, always
200 with uptime and a timestamp.  The Go code serialises the uptime
Duration through its `String()` rendering; the model carries the Duration
value itself, which that string denotes. -/
def healthHandler (req : Request) (env : Env) : HandlerResult :=
  { resp :=
      { status := 200, contentType := "application/json",
        body := Body.json (Response.toJson
          { status := "healthy",
            message := "Service is running",
            data := some (Json.obj
              [("timestamp", Json.str env.nowRFC3339),
               ("uptime", Json.num (timeSince env.monoStart env.monoNow))]) }) },
    log := ["Health check from " ++ req.remoteAddr] }

/-- The anonymous root handler registered on pattern "/": a 404 via
http.NotFound for any path other than "/" (ServeMux sends every path that
matches no other pattern here), otherwise the service-info envelope with
the implicit 200 status of an unannounced first write. -/
def rootHandler (req : Request) (_env : Env) : HandlerResult :=
  if req.path ≠ "/" then
    { resp := httpNotFound, log := [] }
  else
    { resp :=
        { status := 200, contentType := "application/json",
          body := Body.json (Response.toJson
            { status := "success",
              message := "OpenTelemetry Demo Server",
              data := some (Json.obj
                [("endpoints", Json.arr [Json.str "/good", Json.str "/bad",
                                         Json.str "/admin", Json.str "/health"]),
                 ("version", Json.str "1.0.0")]) }) },
      log := [] }

/-- The ServeMux routing set up in main: the four exact patterns
"/good", "/bad", "/admin", "/health", and "/" for everything else. -/
def serve (req : Request) (env : Env) : HandlerResult :=
  if req.path = "/good" then goodHandler req env
  else if req.path = "/bad" then badHandler req env
  else if req.path = "/admin" then adminHandler req env
  else if req.path = "/health" then healthHandler req env
  else rootHandler req env

/-! ### Sample inputs used by the witnesses and counterexamples -/

/-- A plain GET request to /good. -/
def reqGood : Request :=
  { method := "GET", path := "/good", authHeader := "", remoteAddr := "192.0.2.1:5000" }

/-- An environment in which nothing is cancelled and every random draw
is 0 (database latency 10ms, external latency 50ms, op sleeps minimal). -/
def envBase : Env :=
  { cancelAt := none, dbRand := 0, extRand := 0, opRands := fun _ => 0,
    extTimestamp := 1700000000, nowRFC3339 := "2025-01-01T00:00:00Z",
    monoStart := 0, monoNow := 0 }

/-- The environment of a client that disconnects at time 0: the context
is cancelled before the 10ms database wait can fire. -/
def envDbCancel : Env := { envBase with cancelAt := some 0 }

/-- The environment of a client that disconnects at 20ms: after the 10ms
database wait completes, but during the external-call wait (10ms–60ms). -/
def envExtCancel : Env := { envBase with cancelAt := some 20 }

/-- The serialised form of the three static sample users. -/
def usersJson : Json :=
  Json.arr [Json.obj [("id", Json.num 1), ("name", Json.str "Alice Johnson")],
            Json.obj [("id", Json.num 2), ("name", Json.str "Bob Smith")],
            Json.obj [("id", Json.num 3), ("name", Json.str "Charlie Brown")]]

/-! ### The claims -/

/-- C1: if the request context is cancelled during the initial simulated
database wait of /good, the handler replies 503 and never 200; and that
wait is the only step on the success path whose failure changes the
status — whenever it completes, the status is 200 regardless of the
external call's outcome. -/
theorem good_db_cancel_is_503 (req : Request) (env : Env) :
    ((goodDb env).cancelled = true →
      (goodHandler req env).resp.status = 503 ∧ (goodHandler req env).resp.status ≠ 200) ∧
    ((goodDb env).cancelled = false → (goodHandler req env).resp.status = 200) := by
  constructor
  · intro h
    simp [goodHandler, h, httpError]
  · intro h
    simp [goodHandler, h]

/-- C1 witness: the client of `envDbCancel` disconnects at time 0, during
the database wait; the response is 503, not 200. -/
theorem good_db_cancel_is_503_witness :
    (goodHandler reqGood envDbCancel).resp.status = 503 ∧
    (goodHandler reqGood envDbCancel).resp.status ≠ 200 :=
  (good_db_cancel_is_503 reqGood envDbCancel).1 (by decide)

/-- C2: every /good request that is not cancelled during the database
wait gets status 200 and a body whose data.users is exactly the three
static users (ids 1,2,3; Alice Johnson, Bob Smith, Charlie Brown). -/
theorem good_success_three_users (req : Request) (env : Env)
    (h : (goodDb env).cancelled = false) :
    (goodHandler req env).resp.status = 200 ∧
    dataField (goodHandler req env).resp "users" = some usersJson := by
  constructor
  · simp [goodHandler, h]
  · simp only [goodHandler, h, Bool.false_eq_true, if_false]
    rfl

/-- C2 witness: in `envBase` nothing is cancelled; /good returns 200 with
the three users. -/
theorem good_success_three_users_witness :
    (goodHandler reqGood envBase).resp.status = 200 ∧
    dataField (goodHandler reqGood envBase).resp "users" = some usersJson :=
  good_success_three_users reqGood envBase (by decide)

/-- C3: every /bad request, whatever the cancellation time and random
draws, gets status 500 with the fixed error envelope: top-level status
"error" and data.error_code "INTERNAL_ERROR".  No branch of the handler
produces any other status. -/
theorem bad_always_500 (req : Request) (env : Env) :
    (badHandler req env).resp.status = 500 ∧
    ((badHandler req env).resp.bodyJson.map (fun j => j.get "status")) =
      some (some (Json.str "error")) ∧
    dataField (badHandler req env).resp "error_code" = some (Json.str "INTERNAL_ERROR") :=
  ⟨rfl, rfl, rfl⟩

/-- C4: every /admin request gets status 401 with the fixed unauthorized
envelope (data.error_code "UNAUTHORIZED", data.required_role "admin"),
and the Authorization header has no influence on the response: two
invocations differing only in that header write identical responses. -/
theorem admin_always_401 (req : Request) (env : Env) :
    (adminHandler req env).resp.status = 401 ∧
    dataField (adminHandler req env).resp "error_code" = some (Json.str "UNAUTHORIZED") ∧
    dataField (adminHandler req env).resp "required_role" = some (Json.str "admin") ∧
    ∀ a1 a2 : String,
      (adminHandler { req with authHeader := a1 } env).resp =
      (adminHandler { req with authHeader := a2 } env).resp :=
  ⟨rfl, rfl, rfl, fun _ _ => rfl⟩

/-- C5 counterexample: the claim says the database wait of /bad never
terminates early on request-context cancellation, but simulateDatabase
selects on ctx.Done(): with the /bad operation, draw 0 (latency 10ms) and
a context cancelled at time 0, the wait ends at time 0 — before the 10ms
latency has elapsed — returning ctx.Err(). -/
theorem bad_db_wait_ends_early_cex :
    (simulateDatabase 0 0 (some 0) "SELECT * FROM non_existent_table").cancelled = true ∧
    (simulateDatabase 0 0 (some 0) "SELECT * FROM non_existent_table").finish = 0 ∧
    dbLatency 0 = 10 := by decide

/-- C5 amended: only the fixed per-operation delays (time.Sleep) run to
completion unconditionally; the database waits of /bad and /admin and the
external-call waits select on the request context and end early (at the
cancellation time) when it is cancelled mid-wait — but their outcome is
cosmetic: the /bad and /admin responses do not depend on the cancellation
time at all. -/
theorem ctx_waits_end_early_but_cosmetic :
    (∀ start r c op, c < start + dbLatency r →
      (simulateDatabase start r (some c) op).cancelled = true ∧
      (simulateDatabase start r (some c) op).finish = max start c) ∧
    (∀ start r c endp ts, c < start + extLatency r →
      (simulateExternalAPI start r (some c) endp ts).data = none ∧
      (simulateExternalAPI start r (some c) endp ts).finish = max start c) ∧
    (∀ start dur, timeSleep start dur = start + dur) ∧
    (∀ req env c, (badHandler req { env with cancelAt := c }).resp = (badHandler req env).resp) ∧
    (∀ req env c, (adminHandler req { env with cancelAt := c }).resp = (adminHandler req env).resp) := by
  refine ⟨?_, ?_, fun start dur => rfl, fun req env c => rfl, fun req env c => rfl⟩
  · intro start r c op h
    simp [simulateDatabase, ctxWait, h]
  · intro start r c endp ts h
    simp [simulateExternalAPI, ctxWait, h]

/-- C5 amended witness: a database wait and an external wait, both with
draw 0 (latencies 10ms and 50ms), cancelled at 5ms, end on the
cancellation branch. -/
theorem ctx_waits_end_early_but_cosmetic_witness :
    (simulateDatabase 0 0 (some 5) "op").cancelled = true ∧
    (simulateExternalAPI 0 0 (some 5) "e" 0).data = none :=
  ⟨(ctx_waits_end_early_but_cosmetic.1 0 0 5 "op" (by decide)).1,
   (ctx_waits_end_early_but_cosmetic.2.1 0 0 5 "e" 0 (by decide)).1⟩

/-- C6: when the /good external-call wait is cancelled (the database wait
having completed), the handler still replies 200 application/json with
the full envelope, data.external_data being null and the users list
intact; the failure only shows up in the log. -/
theorem good_ext_cancel_null (req : Request) (env : Env)
    (hdb : (goodDb env).cancelled = false)
    (hext : (goodExt env).data = none) :
    (goodHandler req env).resp.status = 200 ∧
    (goodHandler req env).resp.contentType = "application/json" ∧
    dataField (goodHandler req env).resp "external_data" = some Json.null ∧
    dataField (goodHandler req env).resp "users" = some usersJson ∧
    ("External API error: " ++ contextCanceled) ∈ (goodHandler req env).log := by
  refine ⟨?_, ?_, ?_, ?_, ?_⟩
  · simp [goodHandler, hdb]
  · simp [goodHandler, hdb]
  · simp only [goodHandler, hdb, Bool.false_eq_true, if_false, hext]
    rfl
  · simp only [goodHandler, hdb, Bool.false_eq_true, if_false]
    rfl
  · simp [goodHandler, hdb, hext, contextCanceled]

/-- C6 witness: the client of `envExtCancel` disconnects at 20ms, after
the 10ms database wait but during the external wait; /good still replies
200 with a null external_data. -/
theorem good_ext_cancel_null_witness :
    (goodHandler reqGood envExtCancel).resp.status = 200 ∧
    dataField (goodHandler reqGood envExtCancel).resp "external_data" = some Json.null :=
  ⟨(good_ext_cancel_null reqGood envExtCancel rfl rfl).1,
   (good_ext_cancel_null reqGood envExtCancel rfl rfl).2.2.1⟩

/-- C7: every /health request gets status 200, data.uptime is the elapsed
monotonic time since the process-start timestamp, non-negative, and
non-decreasing across two calls in one process lifetime (same start,
later clock reading). -/
theorem health_uptime_monotone (req : Request) (env1 env2 : Env)
    (hstart : env2.monoStart = env1.monoStart)
    (h0 : env1.monoStart ≤ env1.monoNow)
    (h12 : env1.monoNow ≤ env2.monoNow) :
    (healthHandler req env1).resp.status = 200 ∧
    dataField (healthHandler req env1).resp "uptime" =
      some (Json.num (timeSince env1.monoStart env1.monoNow)) ∧
    0 ≤ timeSince env1.monoStart env1.monoNow ∧
    timeSince env1.monoStart env1.monoNow ≤ timeSince env2.monoStart env2.monoNow := by
  refine ⟨rfl, rfl, ?_, ?_⟩
  · simp only [timeSince]
    omega
  · simp only [timeSince, hstart]
    omega

/-- C7 witness: two /health calls in the `envBase` process, the second
5ms later. -/
theorem health_uptime_monotone_witness :
    (healthHandler reqGood envBase).resp.status = 200 ∧
    0 ≤ timeSince envBase.monoStart envBase.monoNow ∧
    timeSince envBase.monoStart envBase.monoNow ≤
      timeSince { envBase with monoNow := 5 }.monoStart { envBase with monoNow := 5 }.monoNow :=
  ⟨(health_uptime_monotone reqGood envBase { envBase with monoNow := 5 } rfl
      (by decide) (by decide)).1,
   (health_uptime_monotone reqGood envBase { envBase with monoNow := 5 } rfl
      (by decide) (by decide)).2.2.1,
   (health_uptime_monotone reqGood envBase { envBase with monoNow := 5 } rfl
      (by decide) (by decide)).2.2.2⟩

/-- C8: the simulated database latency (drawn by simulateDatabase, the
one routine /good, /bad and /admin all call) is uniform over 10–100 ms:
the attainable latencies are exactly the integers of [10ms, 100ms), and
the draw-to-latency map is injective on the draw range [0, 90), so every
attainable latency arises from exactly one draw. -/
theorem db_latency_uniform_range :
    (∀ d : Nat, (∃ r : Nat, dbLatency r = d) ↔ (10 ≤ d ∧ d < 100)) ∧
    (∀ r1 r2 : Nat, r1 < 90 → r2 < 90 → dbLatency r1 = dbLatency r2 → r1 = r2) := by
  constructor
  · intro d
    constructor
    · rintro ⟨r, hr⟩
      have hm : r % 90 < 90 := Nat.mod_lt _ (by decide)
      simp only [dbLatency, intn] at hr
      omega
    · rintro ⟨h1, h2⟩
      refine ⟨d - 10, ?_⟩
      simp only [dbLatency, intn]
      omega
  · intro r1 r2 h1 h2 h
    simp only [dbLatency, intn, Nat.mod_eq_of_lt h1, Nat.mod_eq_of_lt h2] at h
    omega

/-- C8 witness: 55ms is an attainable database latency. -/
theorem db_latency_uniform_range_witness : ∃ r : Nat, dbLatency r = 55 :=
  (db_latency_uniform_range.1 55).mpr (by decide)

/-- C9 counterexample: not every response carries application/json.  The
/good reply to the client of `envDbCancel` (disconnected during the
database wait) goes through http.Error, which stamps
text/plain; charset=utf-8. -/
theorem content_type_not_always_json :
    (serve reqGood envDbCancel).resp.status = 503 ∧
    (serve reqGood envDbCancel).resp.contentType ≠ "application/json" ∧
    (serve reqGood envDbCancel).resp.contentType = "text/plain; charset=utf-8" := by
  decide

/-- C9 amended: every response carries Content-Type application/json
except the two written by the http.Error helper — the 503 reply to a
/good request cancelled during the database wait, and the 404 fallback —
which carry text/plain; charset=utf-8. -/
theorem content_type_json_except_error_helper (req : Request) (env : Env) :
    (serve req env).resp.contentType = "application/json" ∨
    ((serve req env).resp.contentType = "text/plain; charset=utf-8" ∧
     ((serve req env).resp.status = 503 ∨ (serve req env).resp.status = 404)) := by
  unfold serve
  by_cases h1 : req.path = "/good"
  · rw [if_pos h1]
    cases hc : (goodDb env).cancelled
    · left
      simp [goodHandler, hc]
    · right
      simp [goodHandler, hc, httpError]
  · rw [if_neg h1]
    by_cases h2 : req.path = "/bad"
    · rw [if_pos h2]
      left
      rfl
    · rw [if_neg h2]
      by_cases h3 : req.path = "/admin"
      · rw [if_pos h3]
        left
        rfl
      · rw [if_neg h3]
        by_cases h4 : req.path = "/health"
        · rw [if_pos h4]
          left
          rfl
        · rw [if_neg h4]
          by_cases h5 : req.path = "/"
          · left
            simp [rootHandler, h5]
          · right
            simp [rootHandler, h5, httpNotFound, httpError]

/-- C10: no registered handler inspects the HTTP method: for every
method, the routed handler produces exactly the same result (response and
logs) as for the same request with any other method. -/
theorem handlers_ignore_method (req : Request) (env : Env) (m : String) :
    serve { req with method := m } env = serve req env := by
  cases req
  rfl

end Demo
